import Mathlib

/-!
Shallow embedding of the vote-recording core of the Radio Calico
repository: the `song_ratings` schema (with its UNIQUE and CHECK
constraints), the three ratings endpoints of `server.js`, the
`getClientIp` identity resolver, and the client-side song-identity
derivation from `public/script.js`.
-/

namespace RadioCalico

/-- One row of the `song_ratings` table
(`song_id TEXT NOT NULL, user_id TEXT NOT NULL, rating INTEGER NOT NULL`).
The autoincrement id and the timestamp play no role in any claim and are
omitted; row order in the list is insertion order. -/
structure Row where
  song_id : String
  user_id : String
  rating : Int
deriving DecidableEq, Repr

/-- The value-domain constraint `CHECK(rating IN (1, -1))` of the schema. -/
def ratingOk (r : Int) : Bool := r == 1 || r == (-1)

/-- Does a row have the given composite key?  This is the predicate of the
`UNIQUE(song_id, user_id)` constraint and of the point-lookup queries. -/
def pairMatch (s u : String) (row : Row) : Bool :=
  row.song_id == s && row.user_id == u

/-- Number of rows with the given composite key. -/
def pairCount (db : List Row) (s u : String) : Nat :=
  (db.filter (pairMatch s u)).length

/-- The schema invariant: at most one row per (song_id, user_id) pair. -/
def AtMostOne (db : List Row) : Prop :=
  ∀ s u, pairCount db s u ≤ 1

/-- `SELECT COUNT(*) FROM song_ratings WHERE song_id = ? AND rating = ?`. -/
def countRating (db : List Row) (songId : String) (r : Int) : Nat :=
  (db.filter (fun row => row.song_id == songId && row.rating == r)).length

/-- Outcome of `INSERT INTO song_ratings (song_id, user_id, rating)` as the
storage engine performs it: either the new row set, or a constraint
violation (`UNIQUE constraint failed` / `CHECK constraint failed`). -/
inductive InsertResult where
  | ok (db : List Row)
  | uniqueViolation
  | checkViolation
deriving DecidableEq, Repr

/-- The engine-side insert: the CHECK and UNIQUE constraints declared by
`initializeDatabase` are enforced here, inside the storage engine model,
not by the request handler. -/
def sqlInsertRating (db : List Row) (songId userId : String) (rating : Int) :
    InsertResult :=
  if !ratingOk rating then .checkViolation
  else if db.any (pairMatch songId userId) then .uniqueViolation
  else .ok (db ++ [⟨songId, userId, rating⟩])

/-- The possible responses of `POST /api/ratings`: 400 validation error,
201 success with fresh counts, 409 conflict, 500 generic failure. -/
inductive SubmitResponse where
  | badRequest (msg : String)
  | created (songId : String) (thumbsUp thumbsDown : Nat)
  | conflict (msg : String)
  | serverError (msg : String)
deriving DecidableEq, Repr

/-- JavaScript truthiness of a possibly-absent string:
`undefined` and `""` are falsy. -/
def jsTruthyStr : Option String → Bool
  | none => false
  | some s => s != ""

/-- JavaScript truthiness of a possibly-absent number: `undefined` and `0`
are falsy. -/
def jsTruthyInt : Option Int → Bool
  | none => false
  | some n => n != 0

/-- Handler of `POST /api/ratings`.  `songId?` and `rating?` are the
destructured body fields (absent field = `none`), `clientIp` the resolved
identity.  Mirrors the source: `!songId || !rating` check, then the strict
`rating !== 1 && rating !== -1` check, then the insert, mapping a UNIQUE
violation to 409 and any other storage error to 500.  Returns the response
together with the resulting table state. -/
def postRatings (db : List Row) (songId? : Option String) (rating? : Option Int)
    (clientIp : String) : SubmitResponse × List Row :=
  if !jsTruthyStr songId? || !jsTruthyInt rating? then
    (.badRequest "Missing required fields: songId, rating", db)
  else if rating?.getD 0 != 1 && rating?.getD 0 != (-1) then
    (.badRequest "Rating must be 1 (thumbs up) or -1 (thumbs down)", db)
  else
    match sqlInsertRating db (songId?.getD "") clientIp (rating?.getD 0) with
    | .ok newDb =>
        (.created (songId?.getD "")
          (countRating newDb (songId?.getD "") 1)
          (countRating newDb (songId?.getD "") (-1)), newDb)
    | .uniqueViolation => (.conflict "You have already rated this song", db)
    | .checkViolation => (.serverError "CHECK constraint failed", db)

/-- Handler of `GET /api/ratings/:songId`: two COUNT aggregates, no state
change (the handler neither takes ownership of nor returns a new table). -/
def getRatings (db : List Row) (songId : String) : String × Nat × Nat :=
  (songId, countRating db songId 1, countRating db songId (-1))

/-- Handler of `GET /api/ratings/:songId/check`:
`SELECT rating FROM song_ratings WHERE song_id = ? AND user_id = ?` via
`.get` (first matching row), then `hasRated: !!result` and
`rating: result ? result.rating : null`. -/
def checkRating (db : List Row) (songId clientIp : String) : Bool × Option Int :=
  match db.find? (pairMatch songId clientIp) with
  | some row => (true, some row.rating)
  | none => (false, none)

/-- Apply a sequence of submit calls (each a body pair plus resolved
identity) to the table, in order. -/
def runSubmits (db : List Row) :
    List (Option String × Option Int × String) → List Row
  | [] => db
  | (s, r, ip) :: rest => runSubmits (postRatings db s r ip).2 rest

/-- The request metadata `getClientIp` reads: the two headers and the two
transport-level peer addresses (`none` = absent/undefined). -/
structure Request where
  xForwardedFor : Option String
  xRealIp : Option String
  socketRemoteAddress : Option String
  connectionRemoteAddress : Option String
deriving DecidableEq, Repr

/-- JavaScript `a || b` on possibly-absent strings: the left operand if
truthy, otherwise the right operand verbatim. -/
def jsOrStr (a b : Option String) : Option String :=
  if jsTruthyStr a then a else b

/-- Drop leading whitespace from a character list. -/
def trimLeftChars (l : List Char) : List Char :=
  l.dropWhile Char.isWhitespace

/-- JavaScript `s.trim()`: drop leading and trailing whitespace (modelled
over the ASCII whitespace characters, which is all the headers involved
here can carry). -/
def jsTrim (s : String) : String :=
  String.mk ((trimLeftChars (trimLeftChars s.data).reverse).reverse)

/-- `h.split(',')[0].trim()`: the first comma-separated token — the prefix
of `h` before the first comma (all of `h` if it has none) — trimmed. -/
def firstForwardedToken (h : String) : String :=
  jsTrim (String.mk (h.data.takeWhile (fun c => c != ',')))

/-- The identity resolver of `server.js`:
`req.headers['x-forwarded-for']?.split(',')[0].trim() ||
 req.headers['x-real-ip'] || req.socket.remoteAddress ||
 req.connection.remoteAddress`. -/
def getClientIp (req : Request) : Option String :=
  jsOrStr (req.xForwardedFor.map firstForwardedToken)
    (jsOrStr req.xRealIp
      (jsOrStr req.socketRemoteAddress req.connectionRemoteAddress))

/-- The character class kept by the client-side regex replace
`[^a-z0-9||]` (everything else is deleted): lowercase ASCII letters,
digits, and the pipe character (listed twice in the class, which collapses
to the single character). -/
def isAllowedChar (c : Char) : Bool :=
  ('a' ≤ c && c ≤ 'z') || ('0' ≤ c && c ≤ '9') || c == '|'

/-- JavaScript `s.toLowerCase()`, modelled character-wise with the ASCII
lowering of `Char.toLower` (the only characters that survive the
subsequent filter are ASCII). -/
def jsToLower (s : String) : String :=
  String.mk (s.data.map Char.toLower)

/-- The client-side song identity derivation from `public/script.js`:
concatenate artist and title with the separator, lower-case, and delete
every character outside the kept class. -/
def deriveSongId (artist title : String) : String :=
  String.mk ((jsToLower (artist ++ "||" ++ title)).data.filter isAllowedChar)

/-- Does a character string consist only of lowercase ASCII letters,
digits, and occurrences of the two-character separator sequence? (Every
pipe must be part of a pipe pair.)  This is the property the spec asserts
of derived song identities. -/
def sepOnlyChars : List Char → Bool
  | [] => true
  | '|' :: '|' :: rest => sepOnlyChars rest
  | c :: rest =>
      (('a' ≤ c && c ≤ 'z') || ('0' ≤ c && c ≤ '9')) && sepOnlyChars rest

/-! Helper lemmas shared by the claim theorems. -/

lemma atMostOne_nil : AtMostOne [] := by
  intro s u
  simp [pairCount]

lemma atMostOne_singleton (row : Row) : AtMostOne [row] := by
  intro s u
  calc pairCount [row] s u ≤ [row].length := List.length_filter_le _ _
    _ ≤ 1 := by simp

lemma eq_of_length_le_one {α : Type} {l : List α} (h : l.length ≤ 1) {a b : α}
    (ha : a ∈ l) (hb : b ∈ l) : a = b := by
  cases l with
  | nil => cases ha
  | cons x t =>
    cases t with
    | nil =>
      rw [List.mem_singleton] at ha hb
      rw [ha, hb]
    | cons y t2 =>
      simp [List.length_cons] at h

lemma pairCount_append (db : List Row) (row : Row) (s u : String) :
    pairCount (db ++ [row]) s u =
      pairCount db s u + (if pairMatch s u row then 1 else 0) := by
  simp only [pairCount, List.filter_append, List.length_append]
  by_cases hm : pairMatch s u row
  · simp [List.filter, hm]
  · simp [List.filter, hm]

lemma pairCount_eq_zero_of_any_false (db : List Row) (s u : String)
    (h : db.any (pairMatch s u) = false) : pairCount db s u = 0 := by
  have hall : ∀ a ∈ db, ¬ (pairMatch s u a = true) := by
    intro a ha hpa
    have : db.any (pairMatch s u) = true := List.any_eq_true.mpr ⟨a, ha, hpa⟩
    rw [this] at h
    cases h
  simp only [pairCount, List.length_eq_zero, List.filter_eq_nil_iff]
  exact hall

lemma submit_fresh_eq (db : List Row) (s ip : String) (r : Int)
    (hs : s ≠ "") (hr : r = 1 ∨ r = -1)
    (hfresh : db.any (pairMatch s ip) = false) :
    postRatings db (some s) (some r) ip =
      (SubmitResponse.created s
        (countRating (db ++ [⟨s, ip, r⟩]) s 1)
        (countRating (db ++ [⟨s, ip, r⟩]) s (-1)),
       db ++ [⟨s, ip, r⟩]) := by
  rcases hr with rfl | rfl <;>
    simp [postRatings, jsTruthyStr, jsTruthyInt, sqlInsertRating, ratingOk, hs, hfresh]

lemma submit_dup_eq (db : List Row) (s ip : String) (r : Int)
    (hs : s ≠ "") (hr : r = 1 ∨ r = -1)
    (hdup : db.any (pairMatch s ip) = true) :
    postRatings db (some s) (some r) ip =
      (SubmitResponse.conflict "You have already rated this song", db) := by
  rcases hr with rfl | rfl <;>
    simp [postRatings, jsTruthyStr, jsTruthyInt, sqlInsertRating, ratingOk, hs, hdup]

lemma sqlInsertRating_ok (db : List Row) (s u : String) (r : Int) (newDb : List Row)
    (h : sqlInsertRating db s u r = .ok newDb) :
    db.any (pairMatch s u) = false ∧ newDb = db ++ [⟨s, u, r⟩] := by
  unfold sqlInsertRating at h
  split at h
  · cases h
  · split at h
    · cases h
    · next h1 h2 =>
      refine ⟨by simpa using h2, ?_⟩
      injection h with h3
      exact h3.symm

lemma postRatings_state (db : List Row) (s? : Option String) (r? : Option Int)
    (ip : String) :
    (postRatings db s? r? ip).2 = db ∨
      ∃ sid r, db.any (pairMatch sid ip) = false ∧
        (postRatings db s? r? ip).2 = db ++ [⟨sid, ip, r⟩] := by
  unfold postRatings
  split
  · exact Or.inl rfl
  · split
    · exact Or.inl rfl
    · rcases hins : sqlInsertRating db (s?.getD "") ip (r?.getD 0) with newDb | _ | _
      · rcases sqlInsertRating_ok db (s?.getD "") ip (r?.getD 0) _ hins with ⟨hfr, hnew⟩
        refine Or.inr ⟨s?.getD "", r?.getD 0, hfr, ?_⟩
        simp [hins, hnew]
      · simp [hins]
      · simp [hins]

lemma postRatings_preserves_atMostOne (db : List Row) (s? : Option String)
    (r? : Option Int) (ip : String) (h : AtMostOne db) :
    AtMostOne (postRatings db s? r? ip).2 := by
  rcases postRatings_state db s? r? ip with heq | ⟨sid, r, hfresh, heq⟩
  · rw [heq]; exact h
  · rw [heq]
    intro s u
    rw [pairCount_append]
    by_cases hm : pairMatch s u ⟨sid, ip, r⟩ = true
    · have hsu : sid = s ∧ ip = u := by simpa [pairMatch] using hm
      rcases hsu with ⟨rfl, rfl⟩
      have h0 : pairCount db sid ip = 0 :=
        pairCount_eq_zero_of_any_false db sid ip hfresh
      simp [h0, hm]
    · rw [Bool.not_eq_true] at hm
      simp [hm]
      exact h s u

lemma allowed_not_whitespace (c : Char) (h : isAllowedChar c = true) :
    c.isWhitespace = false := by
  by_contra hw
  rw [Bool.not_eq_false] at hw
  have hcases : ((c = ' ' ∨ c = '\t') ∨ c = '\x0d') ∨ c = '\n' := by
    simpa [Char.isWhitespace] using hw
  rcases hcases with ((rfl | rfl) | rfl) | rfl <;> exact absurd h (by decide)

/-! The claim theorems. -/

/-- Claim C1: for every (trackIdentity, identity) pair and every sequence of
submit operations, the `song_ratings` table contains at most one row for
that pair.  Enforcement lives in `sqlInsertRating` — the storage engine
model of the `UNIQUE(song_id, user_id)` constraint — and `postRatings`
performs no application-level pre-check. -/
theorem runSubmits_atMostOne (db : List Row)
    (ops : List (Option String × Option Int × String)) (h : AtMostOne db) :
    AtMostOne (runSubmits db ops) := by
  induction ops generalizing db with
  | nil => exact h
  | cons op rest ih =>
    rcases op with ⟨s, r, ip⟩
    simpa [runSubmits] using ih _ (postRatings_preserves_atMostOne db s r ip h)

/-- Witness for C1: a concrete run with a duplicate submission in it. -/
theorem runSubmits_atMostOne_witness :
    AtMostOne (runSubmits []
      [(some "t1", some 1, "203.0.113.1"), (some "t1", some 1, "203.0.113.1"),
       (some "t1", some (-1), "203.0.113.2")]) :=
  runSubmits_atMostOne [] _ atMostOne_nil

/-- Claim C2: a submit for a pair that already has a stored vote inserts no
second row and mutates nothing (the table is returned unchanged, so the
existing row's polarity and the tally are unchanged), and the response is
the 409 conflict, a constructor distinct from `created` (success) and from
`serverError` (generic storage failure). -/
theorem submit_duplicate_conflict (db : List Row) (s ip : String) (r : Int)
    (hs : s ≠ "") (hr : r = 1 ∨ r = -1)
    (hdup : db.any (pairMatch s ip) = true) :
    postRatings db (some s) (some r) ip =
        (SubmitResponse.conflict "You have already rated this song", db) ∧
    (∀ sid u d, (postRatings db (some s) (some r) ip).1 ≠ .created sid u d) ∧
    (∀ m, (postRatings db (some s) (some r) ip).1 ≠ .serverError m) := by
  have h := submit_dup_eq db s ip r hs hr hdup
  refine ⟨h, ?_, ?_⟩ <;> simp [h]

/-- Witness for C2: duplicate vote by the same identity on the same track
is a conflict and leaves the single stored row as it was. -/
theorem submit_duplicate_conflict_witness :
    postRatings [⟨"t1", "203.0.113.1", 1⟩] (some "t1") (some (-1)) "203.0.113.1" =
      (SubmitResponse.conflict "You have already rated this song",
        [⟨"t1", "203.0.113.1", 1⟩]) :=
  (submit_duplicate_conflict [⟨"t1", "203.0.113.1", 1⟩] "t1" "203.0.113.1" (-1)
    (by decide) (Or.inr rfl) (by decide)).1

/-- Claim C3: a submit meeting the preconditions (non-empty trackIdentity,
polarity exactly +1 or -1, no existing row for the pair) appends exactly
one row with those field values and returns the 201 success response whose
counts are recomputed over the post-insert row set; the only other
outcomes of `postRatings` leave the table untouched, so there is no
partial-failure state. -/
theorem submit_fresh_success (db : List Row) (s ip : String) (r : Int)
    (hs : s ≠ "") (hr : r = 1 ∨ r = -1)
    (hfresh : db.any (pairMatch s ip) = false) :
    postRatings db (some s) (some r) ip =
      (SubmitResponse.created s
        (countRating (db ++ [⟨s, ip, r⟩]) s 1)
        (countRating (db ++ [⟨s, ip, r⟩]) s (-1)),
       db ++ [⟨s, ip, r⟩]) :=
  submit_fresh_eq db s ip r hs hr hfresh

/-- Witness for C3: the spec's first-vote scenario,
`submit("artistx||songy", "203.0.113.1", +1)` succeeds with tally (1, 0). -/
theorem submit_fresh_success_witness :
    postRatings [] (some "artistx||songy") (some 1) "203.0.113.1" =
      (SubmitResponse.created "artistx||songy" 1 0,
        [⟨"artistx||songy", "203.0.113.1", 1⟩]) :=
  (submit_fresh_success [] "artistx||songy" "203.0.113.1" 1
      (by decide) (Or.inl rfl) (by decide)).trans (by decide)

/-- Claim C4: `getRatings` returns the number of stored rows with the given
trackIdentity and polarity +1 as `thumbsUp` and with polarity -1 as
`thumbsDown`, returns (0, 0) when no row carries that trackIdentity, and
touches no state (it neither consumes nor produces a table). -/
theorem getRatings_correct (db : List Row) (s : String) :
    getRatings db s =
      (s, (db.filter (fun row => row.song_id == s && row.rating == 1)).length,
          (db.filter (fun row => row.song_id == s && row.rating == (-1))).length) ∧
    ((∀ row ∈ db, row.song_id ≠ s) → getRatings db s = (s, 0, 0)) := by
  refine ⟨rfl, ?_⟩
  intro h
  have h1 : ∀ r : Int,
      db.filter (fun row => row.song_id == s && row.rating == r) = [] := by
    intro r
    rw [List.filter_eq_nil_iff]
    intro a ha
    simp [h a ha]
  simp [getRatings, countRating, h1]

/-- Witness for C4: an unknown trackIdentity yields (0, 0). -/
theorem getRatings_correct_witness :
    getRatings [⟨"t1", "203.0.113.1", 1⟩] "t2" = ("t2", 0, 0) :=
  (getRatings_correct [⟨"t1", "203.0.113.1", 1⟩] "t2").2 (by decide)

/-- Claim C5: a submit with a missing trackIdentity, a missing polarity, or
a polarity outside plus or minus one is answered with a 400 validation
response — a constructor distinct from success — and the table is returned
unchanged, so no row is inserted and any subsequent tally is unchanged. -/
theorem submit_validation_rejected (db : List Row) (s? : Option String)
    (r? : Option Int) (ip : String)
    (h : s? = none ∨ r? = none ∨ ∃ r, r? = some r ∧ r ≠ 1 ∧ r ≠ -1) :
    ∃ msg, postRatings db s? r? ip = (SubmitResponse.badRequest msg, db) := by
  rcases h with rfl | rfl | ⟨r, rfl, h1, h2⟩
  · exact ⟨"Missing required fields: songId, rating",
      by simp [postRatings, jsTruthyStr]⟩
  · exact ⟨"Missing required fields: songId, rating",
      by simp [postRatings, jsTruthyInt]⟩
  · by_cases h0 : r = 0
    · subst h0
      exact ⟨"Missing required fields: songId, rating",
        by simp [postRatings, jsTruthyInt]⟩
    · unfold postRatings
      by_cases hc : (!jsTruthyStr s? || !jsTruthyInt (some r)) = true
      · rw [if_pos hc]
        exact ⟨"Missing required fields: songId, rating", rfl⟩
      · rw [if_neg hc, if_pos (by simp [h1, h2])]
        exact ⟨"Rating must be 1 (thumbs up) or -1 (thumbs down)", rfl⟩

/-- Witness for C5: the spec's invalid-polarity scenario,
`submit("t1", "203.0.113.1", 0)` is rejected and inserts nothing. -/
theorem submit_validation_rejected_witness :
    ∃ msg, postRatings [] (some "t1") (some 0) "203.0.113.1" =
      (SubmitResponse.badRequest msg, []) :=
  submit_validation_rejected [] (some "t1") (some 0) "203.0.113.1"
    (Or.inr (Or.inr ⟨0, rfl, by decide, by decide⟩))

/-- Counterexample to claim C6 as stated: the regex class kept by the
derivation includes the pipe character itself, so an input pipe survives.
With artist `a|b` and title `c` the derived identity is `a|b||c`, which
contains a lone pipe — punctuation carried over from the input that is not
part of an occurrence of the two-character separator sequence. -/
theorem deriveSongId_claim_counterexample :
    deriveSongId "a|b" "c" = "a|b||c" ∧
    sepOnlyChars (deriveSongId "a|b" "c").data = false :=
  ⟨by decide, by decide⟩

/-- Claim C6 (amended): every character of the derived identity is a
lowercase ASCII letter, a digit, or a pipe (the separator character, which
the filter also retains when it comes from the input); in particular the
identity never contains whitespace. -/
theorem deriveSongId_chars (artist title : String) (c : Char)
    (hc : c ∈ (deriveSongId artist title).data) :
    isAllowedChar c = true ∧ c.isWhitespace = false := by
  have hc' : c ∈ ((jsToLower (artist ++ "||" ++ title)).data).filter isAllowedChar := hc
  have h1 : isAllowedChar c = true := (List.mem_filter.mp hc').2
  exact ⟨h1, allowed_not_whitespace c h1⟩

/-- Witness for the amended C6: the character `a` of
`deriveSongId "A b!" "C|d"` is in the kept class and is not whitespace. -/
theorem deriveSongId_chars_witness :
    isAllowedChar 'a' = true ∧ ('a').isWhitespace = false :=
  deriveSongId_chars "A b!" "C|d" 'a' (by decide)

/-- Counterexample to claim C7 as stated: with all three sources present
but a forwarded-for header whose first comma-separated token trims to the
empty string, the resolver returns the real-ip header, not the trimmed
first token. -/
theorem getClientIp_first_token_counterexample :
    getClientIp ⟨some " , 7.7.7.7", some "2.2.2.2", some "3.3.3.3", some "4.4.4.4"⟩ =
      some "2.2.2.2" ∧
    firstForwardedToken " , 7.7.7.7" = "" ∧
    getClientIp ⟨some " , 7.7.7.7", some "2.2.2.2", some "3.3.3.3", some "4.4.4.4"⟩ ≠
      some (firstForwardedToken " , 7.7.7.7") :=
  ⟨by decide, by decide, by decide⟩

/-- Claim C7 (amended): precedence of the identity resolver, where a
source is selected only if it is present and non-empty: the trimmed first
comma-separated token of the forwarded-for header when non-empty; else the
real-ip header verbatim when non-empty; else the socket peer address when
non-empty; else the lower-level connection peer address. -/
theorem getClientIp_precedence (req : Request) :
    (∀ f, req.xForwardedFor = some f → firstForwardedToken f ≠ "" →
        getClientIp req = some (firstForwardedToken f)) ∧
    (jsTruthyStr (req.xForwardedFor.map firstForwardedToken) = false →
      ∀ rip, req.xRealIp = some rip → rip ≠ "" → getClientIp req = some rip) ∧
    (jsTruthyStr (req.xForwardedFor.map firstForwardedToken) = false →
      jsTruthyStr req.xRealIp = false →
      ∀ a, req.socketRemoteAddress = some a → a ≠ "" → getClientIp req = some a) ∧
    (jsTruthyStr (req.xForwardedFor.map firstForwardedToken) = false →
      jsTruthyStr req.xRealIp = false →
      jsTruthyStr req.socketRemoteAddress = false →
      getClientIp req = req.connectionRemoteAddress) := by
  refine ⟨?_, ?_, ?_, ?_⟩
  · intro f hf hne
    have hcond : jsTruthyStr (req.xForwardedFor.map firstForwardedToken) = true := by
      rw [hf]
      simp [jsTruthyStr, hne]
    unfold getClientIp jsOrStr
    rw [if_pos hcond, hf]
    rfl
  · intro h1 rip hrip hne
    have hcond2 : jsTruthyStr req.xRealIp = true := by
      rw [hrip]
      simp [jsTruthyStr, hne]
    unfold getClientIp jsOrStr
    rw [if_neg (by simp [h1]), if_pos hcond2, hrip]
  · intro h1 h2 a ha hne
    have hcond3 : jsTruthyStr req.socketRemoteAddress = true := by
      rw [ha]
      simp [jsTruthyStr, hne]
    unfold getClientIp jsOrStr
    rw [if_neg (by simp [h1]), if_neg (by simp [h2]), if_pos hcond3, ha]
  · intro h1 h2 h3
    unfold getClientIp jsOrStr
    rw [if_neg (by simp [h1]), if_neg (by simp [h2]), if_neg (by simp [h3])]

/-- Witness for the amended C7: all three sources present with a non-empty
first forwarded-for token selects that token, trimmed. -/
theorem getClientIp_precedence_witness :
    getClientIp ⟨some " 9.9.9.9 , 8.8.8.8", some "2.2.2.2", some "3.3.3.3",
        some "4.4.4.4"⟩ =
      some (firstForwardedToken " 9.9.9.9 , 8.8.8.8") :=
  (getClientIp_precedence ⟨some " 9.9.9.9 , 8.8.8.8", some "2.2.2.2",
      some "3.3.3.3", some "4.4.4.4"⟩).1 " 9.9.9.9 , 8.8.8.8" rfl (by decide)

/-- Claim C8: `checkRating` is a point lookup on the composite key with no
state change: under the table invariant it answers `(true, some p)` exactly
when the row `(s, u, p)` is stored, and `(false, none)` exactly when no row
for the pair is stored. -/
theorem checkRating_correct (db : List Row) (s u : String) (h : AtMostOne db) :
    (∀ p : Int, checkRating db s u = (true, some p) ↔ (⟨s, u, p⟩ : Row) ∈ db) ∧
    (checkRating db s u = (false, none) ↔ ∀ p : Int, (⟨s, u, p⟩ : Row) ∉ db) := by
  have hmatch : ∀ p : Int, pairMatch s u ⟨s, u, p⟩ = true := by
    intro p
    simp [pairMatch]
  rcases hf : db.find? (pairMatch s u) with _ | row
  · have hnone := List.find?_eq_none.mp hf
    have hnotin : ∀ p : Int, (⟨s, u, p⟩ : Row) ∉ db := by
      intro p hin
      exact hnone _ hin (hmatch p)
    constructor
    · intro p
      simp only [checkRating, hf]
      constructor
      · intro heq
        cases heq
      · intro hin
        exact absurd hin (hnotin p)
    · simp only [checkRating, hf]
      exact ⟨fun _ => hnotin, fun _ => by trivial⟩
  · have hpm := List.find?_some hf
    have hmem := List.mem_of_find?_eq_some hf
    have hrow : row = ⟨s, u, row.rating⟩ := by
      obtain ⟨rs, ru, rr⟩ := row
      have hsu : rs = s ∧ ru = u := by simpa [pairMatch] using hpm
      simp [hsu.1, hsu.2]
    constructor
    · intro p
      simp only [checkRating, hf, Prod.mk.injEq, true_and, Option.some.injEq]
      constructor
      · intro hrp
        rw [← hrp, ← hrow]
        exact hmem
      · intro hin
        have hlen : (db.filter (pairMatch s u)).length ≤ 1 := h s u
        have heqr : row = ⟨s, u, p⟩ :=
          eq_of_length_le_one hlen (List.mem_filter.mpr ⟨hmem, hpm⟩)
            (List.mem_filter.mpr ⟨hin, hmatch p⟩)
        rw [heqr]
    · simp only [checkRating, hf]
      constructor
      · intro heq
        cases heq
      · intro hall
        exact absurd (hrow ▸ hmem) (hall row.rating)

/-- Witness for C8: a stored vote is found with its polarity. -/
theorem checkRating_correct_witness :
    checkRating [⟨"t1", "203.0.113.1", 1⟩] "t1" "203.0.113.1" = (true, some 1) :=
  ((checkRating_correct [⟨"t1", "203.0.113.1", 1⟩] "t1" "203.0.113.1"
      (atMostOne_singleton _)).1 1).mpr (by decide)

/-- Claim C9: two racing submits for the same pair, serialized in either
order by the single-writer storage engine (`r1` is the polarity of
whichever submit the engine runs first), yield one success, one 409
conflict for the loser, a table extended by exactly the winner's row, and
exactly one stored row for the pair — with no application-level
check-then-act involved, only the engine-side uniqueness check of
`sqlInsertRating`. -/
theorem concurrent_duplicate_submits (db : List Row) (s ip : String) (r1 r2 : Int)
    (hs : s ≠ "") (h1 : r1 = 1 ∨ r1 = -1) (h2 : r2 = 1 ∨ r2 = -1)
    (hfresh : db.any (pairMatch s ip) = false) :
    (postRatings db (some s) (some r1) ip).1 =
      SubmitResponse.created s (countRating (db ++ [⟨s, ip, r1⟩]) s 1)
        (countRating (db ++ [⟨s, ip, r1⟩]) s (-1)) ∧
    (postRatings (postRatings db (some s) (some r1) ip).2 (some s) (some r2) ip).1 =
      SubmitResponse.conflict "You have already rated this song" ∧
    (postRatings (postRatings db (some s) (some r1) ip).2 (some s) (some r2) ip).2 =
      db ++ [⟨s, ip, r1⟩] ∧
    pairCount (postRatings (postRatings db (some s) (some r1) ip).2
        (some s) (some r2) ip).2 s ip = 1 := by
  have hst := submit_fresh_eq db s ip r1 hs h1 hfresh
  have hany : (db ++ [(⟨s, ip, r1⟩ : Row)]).any (pairMatch s ip) = true := by
    simp [List.any_append, pairMatch]
  have hdup := submit_dup_eq (db ++ [⟨s, ip, r1⟩]) s ip r2 hs h2 hany
  have h0 : pairCount db s ip = 0 := pairCount_eq_zero_of_any_false db s ip hfresh
  refine ⟨by rw [hst], ?_, ?_, ?_⟩
  · simp only [hst]
    simp only [hdup]
  · simp only [hst]
    simp only [hdup]
  · simp only [hst]
    simp only [hdup]
    rw [pairCount_append]
    simp [h0, pairMatch]

/-- Witness for C9: two concrete racing submissions, serialized; the
second receives the conflict and one row remains. -/
theorem concurrent_duplicate_submits_witness :
    (postRatings (postRatings [] (some "t1") (some 1) "203.0.113.1").2
        (some "t1") (some (-1)) "203.0.113.1").1 =
      SubmitResponse.conflict "You have already rated this song" ∧
    pairCount (postRatings (postRatings [] (some "t1") (some 1) "203.0.113.1").2
        (some "t1") (some (-1)) "203.0.113.1").2 "t1" "203.0.113.1" = 1 := by
  have h := concurrent_duplicate_submits [] "t1" "203.0.113.1" 1 (-1)
    (by decide) (Or.inl rfl) (Or.inr rfl) (by decide)
  exact ⟨h.2.1, h.2.2.2⟩

/-- Claim C10: when the forwarded-for header is present but its first
comma-separated token trims to the empty string, the resolver behaves as
if the header were absent, falling through to the remaining sources; the
empty trimmed token is never the selected value. -/
theorem getClientIp_empty_token_fallthrough (req : Request) (f : String)
    (h1 : req.xForwardedFor = some f) (h2 : firstForwardedToken f = "") :
    getClientIp req =
      getClientIp ⟨none, req.xRealIp, req.socketRemoteAddress,
        req.connectionRemoteAddress⟩ := by
  simp [getClientIp, jsOrStr, jsTruthyStr, h1, h2]

/-- Witness for C10: a whitespace-leading, comma-first header falls
through to the real-ip header. -/
theorem getClientIp_empty_token_fallthrough_witness :
    getClientIp ⟨some " ,8.8.8.8", some "2.2.2.2", none, none⟩ =
      getClientIp ⟨none, some "2.2.2.2", none, none⟩ :=
  getClientIp_empty_token_fallthrough ⟨some " ,8.8.8.8", some "2.2.2.2", none, none⟩
    " ,8.8.8.8" rfl (by decide)

end RadioCalico
